import Mathlib

/-!
Verification of the icdc-data-retriever pipeline (`src/fetchData.js` and
`src/utils/arrayUtils.js`) against its specification.

The JavaScript pipeline is shallowly embedded as pure Lean functions:
* network/JSON outcomes become explicit `FetchOutcome` values (a thrown
  transport or parse error is `FetchOutcome.err`);
* JavaScript exceptions raised inside a `try` block become `Except JsError`;
* a JavaScript object field that may be `undefined` becomes `Option`;
* JavaScript `NaN`-propagating integer arithmetic on `parseInt` results
  becomes `Option Int` with `none` playing the role of `NaN`;
* the two external libraries used by the code — `fast-fuzzy`'s `search`
  and `html-to-text`'s `htmlToText` — are parameters of the embedding
  (`searchFn`, `htmlToTextFn`), as is the regex-replace chain applied to
  GLIOMA01 descriptions (`gliomaCleanup`), since their internals are
  third-party code outside this repository.
-/

namespace Icdc

/-- Outcome of one `fetch` + `response.json()` round trip: `ok` carries the
parsed JSON body, `err` is any transport or parse failure (both are thrown
from `await` in the JS and land in the enclosing `catch`). -/
inductive FetchOutcome (α : Type) where
  | ok (body : α)
  | err
deriving DecidableEq

/-- JavaScript errors the embedded code can raise: the `TypeError` from a
property access on `undefined`, and the typed
`Error(errorName.BENTO_BACKEND_NOT_CONNECTED)` thrown by `getIcdcStudyData`. -/
inductive JsError where
  | typeError
  | bentoBackendNotConnected
deriving DecidableEq

/-- One study row of the registry's `studiesByProgram` response.  The two
counters may be absent from the JSON, hence `Option`. -/
structure Study where
  clinical_study_designation : String
  numberOfImageCollections : Option Int
  numberOfCRDCNodes : Option Int
deriving DecidableEq

/-- One record of the IDC listing response.  `collection_id` may be absent
(`undefined` in JS); the description is the raw markup text. -/
structure IdcRecord where
  collection_id : Option String
  description : String
deriving DecidableEq

/-- The parsed IDC listing body: `data["collections"]` may be absent. -/
structure IdcListing where
  collections : Option (List IdcRecord)
deriving DecidableEq

/-- One record of the TCIA listing response; only its `Collection` field is
read by the code, and it may be absent. -/
structure TciaRawRecord where
  Collection : Option String
deriving DecidableEq

/-- One series record of the TCIA per-collection series response. -/
structure SeriesRecord where
  ImageCount : String
  PatientID : String
  Modality : String
  BodyPartExamined : String
deriving DecidableEq

/-- The registry GraphQL response: `{ data: { studiesByProgram: ... } }`,
with both levels possibly absent. -/
structure RegistryData where
  studiesByProgram : Option (List Study)
deriving DecidableEq

/-- Top level of the registry response body. -/
structure RegistryResponse where
  data : Option RegistryData
deriving DecidableEq

/-- Metadata object built by `getTciaCollectionMetadata`.
`Aggregate_ImageCount` is `Option Int`: `none` models JavaScript `NaN`
(produced when some `ImageCount` string fails to parse). -/
structure TciaMetadata where
  Collection : String
  Aggregate_PatientID : Nat
  Aggregate_Modality : List String
  Aggregate_BodyPartExamined : List String
  Aggregate_ImageCount : Option Int
deriving DecidableEq

/-- The `metadata` field of a match entry: an IDC record (with normalized
description) or a TCIA aggregate, depending on the repository. -/
inductive Metadata where
  | idc (record : IdcRecord)
  | tcia (meta : TciaMetadata)
deriving DecidableEq

/-- One entry pushed onto `collectionUrls` in `mapMatchesToStudy`. -/
structure MatchResult where
  repository : String
  url : String
  metadata : Metadata
deriving DecidableEq

/-- One element of the final `collectionMappings` array built by
`collectMappings`. -/
structure StudyMapping where
  CRDCLinks : List MatchResult
  numberOfCRDCNodes : Option Int
  numberOfImageCollections : Option Int
  clinical_study_designation : String
deriving DecidableEq

/-! ### JavaScript primitive models -/

/-- JavaScript `s.includes(key)`: `key` occurs as a contiguous substring. -/
def strIncludes (s key : String) : Bool :=
  decide (key.toList <:+: s.toList)

/-- Value of a list of decimal digit characters, most significant first. -/
def digitsValAux (acc : Nat) : List Char → Nat
  | [] => acc
  | c :: rest => digitsValAux (acc * 10 + (c.toNat - 48)) rest

/-- JavaScript `parseInt(s)` restricted to its base-10 behaviour: skip
leading whitespace, read an optional sign and then the longest run of
decimal digits; `none` models the `NaN` result when no digit is found. -/
def jsParseInt (s : String) : Option Int :=
  let trimmed := s.toList.dropWhile Char.isWhitespace
  let signAndDigits : Int × List Char :=
    match trimmed with
    | '-' :: rest => (-1, rest)
    | '+' :: rest => (1, rest)
    | _ => (1, trimmed)
  let ds := signAndDigits.2.takeWhile Char.isDigit
  if ds.isEmpty then none
  else some (signAndDigits.1 * (digitsValAux 0 ds : Int))

/-- JavaScript addition where `none` plays the role of `NaN`:
`NaN + x = x + NaN = NaN`. -/
def nanAdd (a b : Option Int) : Option Int :=
  match a, b with
  | some x, some y => some (x + y)
  | _, _ => none

/-- `[...new Set(l)]` for string lists: keep the first occurrence of each
value, in encounter order.  `seen` holds the values already emitted. -/
def jsSetDedupAux (seen : List String) : List String → List String
  | [] => []
  | a :: rest =>
      if a ∈ seen then jsSetDedupAux seen rest
      else a :: jsSetDedupAux (a :: seen) rest

/-- `[...new Set(l)]`: distinct values in first-seen order. -/
def jsSetDedup (l : List String) : List String :=
  jsSetDedupAux [] l

/-- Specification-side reading of "the distinct values in first-seen
order": fold left, appending each value the first time it appears. -/
def firstSeenDistinct (l : List String) : List String :=
  l.foldl (fun acc x => if x ∈ acc then acc else acc ++ [x]) []

/-! ### `src/utils/arrayUtils.js` -/

/-- `filterObjectArray(array, property, key)` from
`src/utils/arrayUtils.js`: keep the objects whose `property` value contains
`key` as a substring.  The property access `obj[property]` on a record
lacking the property yields `undefined`, and `.includes` on `undefined`
throws a `TypeError`; `Array.prototype.filter` runs the predicate on every
element, so one missing property aborts the whole filter. -/
def filterObjectArray {α : Type} (array : List α) (prop : α → Option String)
    (key : String) : Except JsError (List α) :=
  match array with
  | [] => .ok []
  | a :: rest =>
      match prop a with
      | none => .error .typeError
      | some s =>
          match filterObjectArray rest prop key with
          | .error e => .error e
          | .ok r => .ok (if strIncludes s key then a :: r else r)

/-! ### Collection fetchers (`src/fetchData.js` lines 25–113) -/

/-- `getIdcCollections()`: fetch the IDC listing and filter to records
whose `collection_id` contains `"icdc_"`.  Any error inside the `try`
(transport, parse, or the filter throwing on a malformed record) is logged
and turned into an empty list. -/
def getIdcCollections (response : FetchOutcome IdcListing) : List IdcRecord :=
  match response with
  | .err => []
  | .ok body =>
      match body.collections with
      | none => []
      | some collections =>
          match filterObjectArray collections (fun o => o.collection_id) "icdc_" with
          | .error _ => []
          | .ok filtered => filtered

/-- `getTciaCollections()`: fetch the TCIA listing, filter to records whose
`Collection` contains `"ICDC-"`, and return the collection names.  After a
successful filter every record's `Collection` is present, so the source's
`.map((obj) => obj.Collection)` is the `filterMap` below.  Errors degrade
to an empty list. -/
def getTciaCollections (response : FetchOutcome (List TciaRawRecord)) : List String :=
  match response with
  | .err => []
  | .ok body =>
      match filterObjectArray body (fun o => o.Collection) "ICDC-" with
      | .error _ => []
      | .ok filtered => filtered.filterMap (fun o => o.Collection)

/-- `getTciaCollectionData(collection_id)`: fetch one collection's series
list; errors degrade to an empty list. -/
def getTciaCollectionData (response : FetchOutcome (List SeriesRecord)) : List SeriesRecord :=
  match response with
  | .ok body => body
  | .err => []

/-- `getIcdcStudyData()`: POST the GraphQL query; on success return
`data.data?.studiesByProgram` (possibly `undefined`), on any failure log
and re-throw the typed `BENTO_BACKEND_NOT_CONNECTED` error. -/
def getIcdcStudyData (response : FetchOutcome RegistryResponse) :
    Except JsError (Option (List Study)) :=
  match response with
  | .err => .error .bentoBackendNotConnected
  | .ok body => .ok (body.data.bind (fun d => d.studiesByProgram))

/-- `getTciaCollectionsData(tciaCollections)`: sequentially fetch each
collection's series and accumulate an object keyed by collection name.
`fetchSeries` gives the network outcome per name; lookup of an absent key
returns `none` (JS `undefined`).  Duplicate names would fetch the same
data, so first-match lookup agrees with the JS last-write-wins object. -/
def getTciaCollectionsData (fetchSeries : String → FetchOutcome (List SeriesRecord)) :
    List String → String → Option (List SeriesRecord)
  | [], _ => none
  | c :: rest, k =>
      if k = c then some (getTciaCollectionData (fetchSeries c))
      else getTciaCollectionsData fetchSeries rest k

/-! ### URL constants

Modelled from the spec: the constants module (`constants/dataRetrieval.js`)
is not part of the provided sources; the spec only says URLs are formed by
concatenating a per-archive base URL with the matched collection id/name,
so the base URLs are symbolic values — no claim depends on their content. -/

/-- Modelled from the spec: base URL of the IDC collection web UI. -/
def IDC_COLLECTION_BASE_URL : String := "IDC_COLLECTION_BASE_URL/"

/-- Modelled from the spec: base URL of the TCIA collection web UI. -/
def TCIA_COLLECTION_BASE_URL : String := "TCIA_COLLECTION_BASE_URL/"

/-! ### Metadata builders (`src/fetchData.js` lines 160–218) -/

/-- The description normalization inside `getIdcCollectionMetadata`:
convert markup to plain text via `htmlToText` (no word wrapping), and for
the GLIOMA01 study additionally apply the regex-replace cleanup chain
(`gliomaCleanup` stands for that chain; its internals are regex engine
behaviour outside this repository's sources). -/
def normalizeDescription (htmlToTextFn gliomaCleanup : String → String)
    (raw : String) (designation : String) : String :=
  let cleanedDescText := htmlToTextFn raw
  if designation = "GLIOMA01" then gliomaCleanup cleanedDescText
  else cleanedDescText

/-- `getIdcCollectionMetadata(collectionId, idcCollections, icdcStudy)`:
find the record with the given `collection_id` and replace its description
with the normalized text.  When `find` misses, the JS dereferences
`undefined` and throws, modelled by `none`.  (The JS mutates the found
record in place; the pure embedding returns the updated record, which is
the only part later code reads.) -/
def getIdcCollectionMetadata (htmlToTextFn gliomaCleanup : String → String)
    (collectionId : String) (idcCollections : List IdcRecord) (icdcStudy : Study) :
    Option IdcRecord :=
  match idcCollections.find? (fun o => o.collection_id == some collectionId) with
  | none => none
  | some r =>
      some { r with
              description := normalizeDescription htmlToTextFn gliomaCleanup
                r.description icdcStudy.clinical_study_designation }

/-- The `reduce` computing `totalImages`: start from `0` and add each
series' `parseInt(obj.ImageCount)`; one unparsable count poisons the whole
sum with `NaN` (`none`). -/
def sumImageCounts (series : List SeriesRecord) : Option Int :=
  series.foldl (fun tot obj => nanAdd tot (jsParseInt obj.ImageCount)) (some 0)

/-- Body of `getTciaCollectionMetadata` once the series list has been
looked up: aggregate counts and distinct value sets, with the hardcoded
GLIOMA01 adjustment (push `"Histopathology"`, add 84 images). -/
def tciaAggregate (collectionId : String) (series : List SeriesRecord)
    (icdcStudy : Study) : TciaMetadata :=
  let totalImages := sumImageCounts series
  let totalPatients := (jsSetDedup (series.map (fun o => o.PatientID))).length
  let uniqueModalities := jsSetDedup (series.map (fun o => o.Modality))
  let uniqueBodypartsExamined := jsSetDedup (series.map (fun o => o.BodyPartExamined))
  if icdcStudy.clinical_study_designation = "GLIOMA01" then
    { Collection := collectionId
      Aggregate_PatientID := totalPatients
      Aggregate_Modality := uniqueModalities ++ ["Histopathology"]
      Aggregate_BodyPartExamined := uniqueBodypartsExamined
      Aggregate_ImageCount := nanAdd totalImages (some 84) }
  else
    { Collection := collectionId
      Aggregate_PatientID := totalPatients
      Aggregate_Modality := uniqueModalities
      Aggregate_BodyPartExamined := uniqueBodypartsExamined
      Aggregate_ImageCount := totalImages }

/-- `getTciaCollectionMetadata(collectionId, tciaCollectionsData, icdcStudy)`:
look up the series list and aggregate it.  A missing key would make the JS
`reduce` throw on `undefined`, modelled by `none`; every caller guards the
lookup first. -/
def getTciaCollectionMetadata (collectionId : String)
    (tciaCollectionsData : String → Option (List SeriesRecord))
    (icdcStudy : Study) : Option TciaMetadata :=
  (tciaCollectionsData collectionId).map
    (fun series => tciaAggregate collectionId series icdcStudy)

/-! ### Study matcher (`src/fetchData.js` lines 230–281) -/

/-- The entry pushed for one IDC fuzzy match, or `none` when the metadata
lookup throws. -/
def idcEntry (htmlToTextFn gliomaCleanup : String → String)
    (idcCollections : List IdcRecord) (icdcStudy : Study) (m : String) :
    Option MatchResult :=
  (getIdcCollectionMetadata htmlToTextFn gliomaCleanup m idcCollections icdcStudy).map
    (fun md => { repository := "IDC", url := IDC_COLLECTION_BASE_URL ++ m
                 metadata := .idc md })

/-- The IDC entry as a total function: the `none` branch is unreachable in
the pipeline (fuzzy matches come from the same list) and yields a junk
record. -/
def idcEntryTotal (htmlToTextFn gliomaCleanup : String → String)
    (idcCollections : List IdcRecord) (icdcStudy : Study) (m : String) :
    MatchResult :=
  match idcEntry htmlToTextFn gliomaCleanup idcCollections icdcStudy m with
  | some e => e
  | none => { repository := "IDC", url := IDC_COLLECTION_BASE_URL ++ m
              metadata := .idc { collection_id := none, description := "" } }

/-- The entry pushed for one TCIA fuzzy match: guarded by
`tciaCollectionsData[match]?.length > 0`, so a missing or empty series list
produces no entry at all. -/
def tciaEntry (tciaCollectionsData : String → Option (List SeriesRecord))
    (icdcStudy : Study) (m : String) : Option MatchResult :=
  match tciaCollectionsData m with
  | some series =>
      if 0 < series.length then
        some { repository := "TCIA", url := TCIA_COLLECTION_BASE_URL ++ m
               metadata := .tcia (tciaAggregate m series icdcStudy) }
      else none
  | none => none

/-- The first loop of `mapMatchesToStudy`: push one IDC entry per match, in
match order; a failed metadata lookup throws out of the loop. -/
def idcLoop (htmlToTextFn gliomaCleanup : String → String)
    (idcCollections : List IdcRecord) (icdcStudy : Study) :
    List String → Except JsError (List MatchResult)
  | [] => .ok []
  | m :: rest =>
      match idcEntry htmlToTextFn gliomaCleanup idcCollections icdcStudy m with
      | none => .error .typeError
      | some e =>
          match idcLoop htmlToTextFn gliomaCleanup idcCollections icdcStudy rest with
          | .error err => .error err
          | .ok r => .ok (e :: r)

/-- `mapMatchesToStudy(icdcStudy, idcCollections, tciaCollections,
tciaCollectionsData)`: fuzzy-match the study designation against the IDC
collection ids and the TCIA names (`searchFn` stands for `fast-fuzzy`'s
`search`; in the pipeline every IDC record has passed the id filter, so
mapping to the ids is the `filterMap` below), push all IDC entries, then
all guarded TCIA entries, onto one list.  The source's
`if (matches.length !== 0)` wrappers are no-ops around loops that run zero
times on empty lists. -/
def mapMatchesToStudy (searchFn : String → List String → List String)
    (htmlToTextFn gliomaCleanup : String → String) (icdcStudy : Study)
    (idcCollections : List IdcRecord) (tciaCollections : List String)
    (tciaCollectionsData : String → Option (List SeriesRecord)) :
    Except JsError (List MatchResult) :=
  let idcMatches := searchFn icdcStudy.clinical_study_designation
    (idcCollections.filterMap (fun o => o.collection_id))
  let tciaMatches := searchFn icdcStudy.clinical_study_designation tciaCollections
  match idcLoop htmlToTextFn gliomaCleanup idcCollections icdcStudy idcMatches with
  | .error e => .error e
  | .ok idcPart =>
      .ok (idcPart ++ tciaMatches.filterMap (tciaEntry tciaCollectionsData icdcStudy))

/-! ### Mapping collector and pipeline (`src/fetchData.js` lines 293–343) -/

/-- The guard `icdcStudies[study]?.numberOfCRDCNodes > 0`: comparison with
`undefined` is false in JS, so an absent count excludes the study. -/
def keepStudy (s : Study) : Bool :=
  match s.numberOfCRDCNodes with
  | some n => 0 < n
  | none => false

/-- The object pushed onto `collectionMappings` for one kept study. -/
def mkStudyMapping (s : Study) (collectionUrls : List MatchResult) : StudyMapping :=
  { CRDCLinks := collectionUrls
    numberOfCRDCNodes := s.numberOfCRDCNodes
    numberOfImageCollections := s.numberOfImageCollections
    clinical_study_designation := s.clinical_study_designation }

/-- The `for (const study in icdcStudies)` loop of `collectMappings`. -/
def collectMappingsLoop (searchFn : String → List String → List String)
    (htmlToTextFn gliomaCleanup : String → String)
    (idcCollections : List IdcRecord) (tciaCollections : List String)
    (tciaCollectionsData : String → Option (List SeriesRecord)) :
    List Study → Except JsError (List StudyMapping)
  | [] => .ok []
  | s :: rest =>
      match mapMatchesToStudy searchFn htmlToTextFn gliomaCleanup s
        idcCollections tciaCollections tciaCollectionsData with
      | .error e => .error e
      | .ok collectionUrls =>
          match collectMappingsLoop searchFn htmlToTextFn gliomaCleanup
            idcCollections tciaCollections tciaCollectionsData rest with
          | .error e => .error e
          | .ok r =>
              .ok (if keepStudy s then mkStudyMapping s collectionUrls :: r else r)

/-- `collectMappings(icdcStudies, ...)`: iterate the studies in input
order; a `for..in` over `undefined` runs zero iterations, so an absent
study list yields an empty output. -/
def collectMappings (searchFn : String → List String → List String)
    (htmlToTextFn gliomaCleanup : String → String)
    (icdcStudies : Option (List Study)) (idcCollections : List IdcRecord)
    (tciaCollections : List String)
    (tciaCollectionsData : String → Option (List SeriesRecord)) :
    Except JsError (List StudyMapping) :=
  match icdcStudies with
  | none => .ok []
  | some studies =>
      collectMappingsLoop searchFn htmlToTextFn gliomaCleanup idcCollections
        tciaCollections tciaCollectionsData studies

/-- `mapExternalDataToStudies()`: run the whole pipeline.  Its `catch`
logs any error and *returns the error value itself* (JS `return error;`),
so the result is either an error signal (`Sum.inl`) or the mapping list
(`Sum.inr`); callers must inspect which. -/
def mapExternalDataToStudies (searchFn : String → List String → List String)
    (htmlToTextFn gliomaCleanup : String → String)
    (registryResponse : FetchOutcome RegistryResponse)
    (idcResponse : FetchOutcome IdcListing)
    (tciaResponse : FetchOutcome (List TciaRawRecord))
    (fetchSeries : String → FetchOutcome (List SeriesRecord)) :
    JsError ⊕ List StudyMapping :=
  match getIcdcStudyData registryResponse with
  | .error e => .inl e
  | .ok icdcStudies =>
      let idcCollections := getIdcCollections idcResponse
      let tciaCollections := getTciaCollections tciaResponse
      let tciaCollectionsData := getTciaCollectionsData fetchSeries tciaCollections
      match collectMappings searchFn htmlToTextFn gliomaCleanup icdcStudies
        idcCollections tciaCollections tciaCollectionsData with
      | .error e => .inl e
      | .ok collectionMappings => .inr collectionMappings

/-! ### Specification-side definitions -/

/-- Specification-side sum: each series' `ImageCount` parsed as an integer
(`getD 0` is exact whenever every count parses). -/
def parsedImageCountSum (series : List SeriesRecord) : Int :=
  (series.map (fun r => (jsParseInt r.ImageCount).getD 0)).sum

/-- The list of match entries `mapMatchesToStudy` produces for one study
when every lookup succeeds: all IDC entries in match order, then all
guarded TCIA entries in match order. -/
def matchLinks (searchFn : String → List String → List String)
    (htmlToTextFn gliomaCleanup : String → String)
    (idcCollections : List IdcRecord) (tciaCollections : List String)
    (tciaCollectionsData : String → Option (List SeriesRecord)) (s : Study) :
    List MatchResult :=
  (searchFn s.clinical_study_designation
      (idcCollections.filterMap (fun o => o.collection_id))).map
    (idcEntryTotal htmlToTextFn gliomaCleanup idcCollections s) ++
  (searchFn s.clinical_study_designation tciaCollections).filterMap
    (tciaEntry tciaCollectionsData s)

/-! ### Lemmas about the first-seen deduplication -/

theorem mem_jsSetDedupAux :
    ∀ (l seen : List String) (x : String),
      x ∈ jsSetDedupAux seen l ↔ (x ∈ l ∧ x ∉ seen)
  | [], seen, x => by simp [jsSetDedupAux]
  | a :: l, seen, x => by
    simp only [jsSetDedupAux]
    by_cases h : a ∈ seen
    · rw [if_pos h, mem_jsSetDedupAux l seen x]
      simp only [List.mem_cons]
      constructor
      · rintro ⟨hx, hns⟩
        exact ⟨Or.inr hx, hns⟩
      · rintro ⟨hx | hx, hns⟩
        · exact absurd (hx ▸ h) hns
        · exact ⟨hx, hns⟩
    · rw [if_neg h]
      simp only [List.mem_cons, mem_jsSetDedupAux l (a :: seen) x]
      constructor
      · rintro (rfl | ⟨hx, hns⟩)
        · exact ⟨Or.inl rfl, h⟩
        · exact ⟨Or.inr hx, fun hc => hns (Or.inr hc)⟩
      · rintro ⟨rfl | hx, hns⟩
        · exact Or.inl rfl
        · by_cases hxa : x = a
          · exact Or.inl hxa
          · exact Or.inr ⟨hx, fun hc => hc.elim hxa hns⟩

theorem jsSetDedupAux_nodup :
    ∀ (l seen : List String), (jsSetDedupAux seen l).Nodup
  | [], _ => by simp [jsSetDedupAux]
  | a :: l, seen => by
    simp only [jsSetDedupAux]
    by_cases h : a ∈ seen
    · rw [if_pos h]
      exact jsSetDedupAux_nodup l seen
    · rw [if_neg h]
      refine List.nodup_cons.mpr ⟨?_, jsSetDedupAux_nodup l (a :: seen)⟩
      intro hmem
      exact ((mem_jsSetDedupAux l (a :: seen) a).mp hmem).2 (List.mem_cons_self a seen)

theorem jsSetDedupAux_sublist :
    ∀ (l seen : List String), (jsSetDedupAux seen l).Sublist l
  | [], _ => by simp [jsSetDedupAux]
  | a :: l, seen => by
    simp only [jsSetDedupAux]
    by_cases h : a ∈ seen
    · rw [if_pos h]
      exact (jsSetDedupAux_sublist l seen).cons a
    · rw [if_neg h]
      exact (jsSetDedupAux_sublist l (a :: seen)).cons₂ a

theorem jsSetDedupAux_congr :
    ∀ (l s t : List String), (∀ y, y ∈ s ↔ y ∈ t) →
      jsSetDedupAux s l = jsSetDedupAux t l
  | [], _, _, _ => rfl
  | a :: l, s, t, h => by
    simp only [jsSetDedupAux]
    by_cases hs : a ∈ s
    · rw [if_pos hs, if_pos ((h a).mp hs), jsSetDedupAux_congr l s t h]
    · rw [if_neg hs, if_neg (fun hc => hs ((h a).mpr hc)),
        jsSetDedupAux_congr l (a :: s) (a :: t)
          (fun y => by simp only [List.mem_cons, h y])]

theorem foldl_firstSeen_eq :
    ∀ (l acc : List String),
      l.foldl (fun acc x => if x ∈ acc then acc else acc ++ [x]) acc =
        acc ++ jsSetDedupAux acc l
  | [], acc => by simp [jsSetDedupAux]
  | a :: l, acc => by
    simp only [List.foldl_cons, jsSetDedupAux]
    by_cases h : a ∈ acc
    · rw [if_pos h, if_pos h, foldl_firstSeen_eq l acc]
    · rw [if_neg h, if_neg h, foldl_firstSeen_eq l (acc ++ [a]),
        jsSetDedupAux_congr l (acc ++ [a]) (a :: acc)
          (fun y => by simp [or_comm]),
        List.append_assoc]
      simp

theorem jsSetDedup_eq_firstSeenDistinct (l : List String) :
    jsSetDedup l = firstSeenDistinct l := by
  have h := foldl_firstSeen_eq l []
  simpa [firstSeenDistinct, jsSetDedup] using h.symm

theorem jsSetDedup_nodup (l : List String) : (jsSetDedup l).Nodup :=
  jsSetDedupAux_nodup l []

theorem jsSetDedup_sublist (l : List String) : (jsSetDedup l).Sublist l :=
  jsSetDedupAux_sublist l []

theorem mem_jsSetDedup (l : List String) (x : String) :
    x ∈ jsSetDedup l ↔ x ∈ l := by
  simp [jsSetDedup, mem_jsSetDedupAux]

/-- The length of the first-seen deduplication is the number of distinct
values. -/
theorem jsSetDedup_length_card (l : List String) :
    (jsSetDedup l).length = l.toFinset.card := by
  have h1 : (jsSetDedup l).toFinset = l.toFinset := by
    ext x
    simp [List.mem_toFinset, mem_jsSetDedup]
  calc (jsSetDedup l).length
      = (jsSetDedup l).toFinset.card :=
        (List.toFinset_card_of_nodup (jsSetDedup_nodup l)).symm
    _ = l.toFinset.card := by rw [h1]

/-! ### Lemmas about the image-count sum -/

theorem sumImageCounts_foldl :
    ∀ (series : List SeriesRecord) (init : Int),
      (∀ r ∈ series, (jsParseInt r.ImageCount).isSome) →
      series.foldl (fun tot obj => nanAdd tot (jsParseInt obj.ImageCount)) (some init) =
        some (init + parsedImageCountSum series)
  | [], init, _ => by simp [parsedImageCountSum]
  | r :: rest, init, h => by
    obtain ⟨v, hv⟩ := Option.isSome_iff_exists.mp (h r (List.mem_cons_self r rest))
    have hstep : nanAdd (some init) (jsParseInt r.ImageCount) = some (init + v) := by
      rw [hv]
      rfl
    rw [List.foldl_cons, hstep,
      sumImageCounts_foldl rest (init + v)
        (fun x hx => h x (List.mem_cons_of_mem r hx))]
    simp [parsedImageCountSum, hv, add_assoc]

theorem sumImageCounts_eq (series : List SeriesRecord)
    (h : ∀ r ∈ series, (jsParseInt r.ImageCount).isSome) :
    sumImageCounts series = some (parsedImageCountSum series) := by
  have := sumImageCounts_foldl series 0 h
  simpa [sumImageCounts] using this

/-! ### Lemmas about the fetch-level filter -/

theorem filterObjectArray_error {α : Type} (prop : α → Option String) (key : String) :
    ∀ (array : List α), (∃ a ∈ array, prop a = none) →
      filterObjectArray array prop key = .error .typeError
  | [], h => absurd h (by simp)
  | a :: rest, h => by
    simp only [filterObjectArray]
    rcases h with ⟨b, hb, hbn⟩
    rcases List.mem_cons.mp hb with rfl | hbr
    · rw [hbn]
    · cases hpa : prop a with
      | none => rfl
      | some s =>
        rw [filterObjectArray_error prop key rest ⟨b, hbr, hbn⟩]

/-! ### Lemmas about the study matcher -/

theorem idcEntry_eq_total (htmlToTextFn gliomaCleanup : String → String)
    (idcCollections : List IdcRecord) (icdcStudy : Study) (m : String)
    (h : ∃ r ∈ idcCollections, r.collection_id = some m) :
    idcEntry htmlToTextFn gliomaCleanup idcCollections icdcStudy m =
      some (idcEntryTotal htmlToTextFn gliomaCleanup idcCollections icdcStudy m) := by
  cases hfind : idcCollections.find? (fun o => o.collection_id == some m) with
  | none =>
    exfalso
    obtain ⟨r, hr, hid⟩ := h
    have := List.find?_eq_none.mp hfind r hr
    simp [hid] at this
  | some rr =>
    simp [idcEntry, idcEntryTotal, getIdcCollectionMetadata, hfind]

theorem idcLoop_eq_ok (htmlToTextFn gliomaCleanup : String → String)
    (idcCollections : List IdcRecord) (icdcStudy : Study) :
    ∀ (ms : List String),
      (∀ m ∈ ms, ∃ r ∈ idcCollections, r.collection_id = some m) →
      idcLoop htmlToTextFn gliomaCleanup idcCollections icdcStudy ms =
        .ok (ms.map (idcEntryTotal htmlToTextFn gliomaCleanup idcCollections icdcStudy))
  | [], _ => rfl
  | m :: rest, h => by
    simp only [idcLoop, List.map_cons]
    rw [idcEntry_eq_total htmlToTextFn gliomaCleanup idcCollections icdcStudy m
        (h m (List.mem_cons_self m rest)),
      idcLoop_eq_ok htmlToTextFn gliomaCleanup idcCollections icdcStudy rest
        (fun x hx => h x (List.mem_cons_of_mem m hx))]

theorem mapMatchesToStudy_eq_ok (searchFn : String → List String → List String)
    (htmlToTextFn gliomaCleanup : String → String) (icdcStudy : Study)
    (idcCollections : List IdcRecord) (tciaCollections : List String)
    (tciaCollectionsData : String → Option (List SeriesRecord))
    (hsub : ∀ q c, ∀ m ∈ searchFn q c, m ∈ c) :
    mapMatchesToStudy searchFn htmlToTextFn gliomaCleanup icdcStudy
        idcCollections tciaCollections tciaCollectionsData =
      .ok (matchLinks searchFn htmlToTextFn gliomaCleanup idcCollections
        tciaCollections tciaCollectionsData icdcStudy) := by
  have hm : ∀ m ∈ searchFn icdcStudy.clinical_study_designation
      (idcCollections.filterMap (fun o => o.collection_id)),
      ∃ r ∈ idcCollections, r.collection_id = some m := by
    intro m hmem
    have hin := hsub _ _ m hmem
    rcases List.mem_filterMap.mp hin with ⟨r, hr, hid⟩
    exact ⟨r, hr, hid⟩
  simp only [mapMatchesToStudy, matchLinks]
  rw [idcLoop_eq_ok htmlToTextFn gliomaCleanup idcCollections icdcStudy _ hm]

theorem collectMappingsLoop_eq (searchFn : String → List String → List String)
    (htmlToTextFn gliomaCleanup : String → String)
    (idcCollections : List IdcRecord) (tciaCollections : List String)
    (tciaCollectionsData : String → Option (List SeriesRecord))
    (hsub : ∀ q c, ∀ m ∈ searchFn q c, m ∈ c) :
    ∀ (studies : List Study),
      collectMappingsLoop searchFn htmlToTextFn gliomaCleanup idcCollections
          tciaCollections tciaCollectionsData studies =
        .ok ((studies.filter keepStudy).map
          (fun s => mkStudyMapping s (matchLinks searchFn htmlToTextFn gliomaCleanup
            idcCollections tciaCollections tciaCollectionsData s)))
  | [] => rfl
  | s :: rest => by
    simp only [collectMappingsLoop, List.filter_cons]
    rw [mapMatchesToStudy_eq_ok searchFn htmlToTextFn gliomaCleanup s
        idcCollections tciaCollections tciaCollectionsData hsub,
      collectMappingsLoop_eq searchFn htmlToTextFn gliomaCleanup idcCollections
        tciaCollections tciaCollectionsData hsub rest]
    by_cases h : keepStudy s
    · simp [h]
    · simp [h]

/-! ### Claim theorems -/

/-- Claim C1: if the primary registry query fails (transport or parse
error), `getIcdcStudyData` re-raises the typed "backend unreachable"
failure (`bentoBackendNotConnected`), and `mapExternalDataToStudies`
signals that fatal condition to its caller (as the returned error value,
per the pipeline's catch-and-return convention) rather than returning a
partial mapping result. -/
theorem primary_failure_fatal (searchFn : String → List String → List String)
    (htmlToTextFn gliomaCleanup : String → String)
    (registryResponse : FetchOutcome RegistryResponse)
    (idcResponse : FetchOutcome IdcListing)
    (tciaResponse : FetchOutcome (List TciaRawRecord))
    (fetchSeries : String → FetchOutcome (List SeriesRecord))
    (h : registryResponse = .err) :
    getIcdcStudyData registryResponse = .error .bentoBackendNotConnected ∧
    mapExternalDataToStudies searchFn htmlToTextFn gliomaCleanup registryResponse
      idcResponse tciaResponse fetchSeries = .inl .bentoBackendNotConnected := by
  subst h
  exact ⟨rfl, rfl⟩

/-- Witness for C1 at a concrete failing registry response. -/
theorem primary_failure_fatal_witness :
    (FetchOutcome.err : FetchOutcome RegistryResponse) = FetchOutcome.err ∧
    getIcdcStudyData FetchOutcome.err = .error .bentoBackendNotConnected ∧
    mapExternalDataToStudies (fun _ c => c) id id FetchOutcome.err
      (.ok { collections := none }) (.ok []) (fun _ => .err) =
      .inl .bentoBackendNotConnected := by
  refine ⟨rfl, ?_, ?_⟩
  · exact (primary_failure_fatal (fun _ c => c) id id .err
      (.ok { collections := none }) (.ok []) (fun _ => .err) rfl).1
  · exact (primary_failure_fatal (fun _ c => c) id id .err
      (.ok { collections := none }) (.ok []) (fun _ => .err) rfl).2

/-- Claim C2: `collectMappings` emits exactly one StudyMapping — carrying
the study's designation, node count, image-collection count and its match
results — for each study whose `numberOfCRDCNodes` is greater than 0, in
input order; studies with zero or absent node count are silently excluded
even when they have matches.  (The hypothesis says `fast-fuzzy`'s results
are drawn from the candidate list, which makes every metadata lookup
succeed.) -/
theorem collectMappings_filters_by_node_count
    (searchFn : String → List String → List String)
    (htmlToTextFn gliomaCleanup : String → String) (studies : List Study)
    (idcCollections : List IdcRecord) (tciaCollections : List String)
    (tciaCollectionsData : String → Option (List SeriesRecord))
    (hsub : ∀ q c, ∀ m ∈ searchFn q c, m ∈ c) :
    collectMappings searchFn htmlToTextFn gliomaCleanup (some studies)
        idcCollections tciaCollections tciaCollectionsData =
      .ok ((studies.filter keepStudy).map
        (fun s => mkStudyMapping s (matchLinks searchFn htmlToTextFn gliomaCleanup
          idcCollections tciaCollections tciaCollectionsData s))) ∧
    (∀ s : Study, keepStudy s = true ↔ ∃ n : Int, s.numberOfCRDCNodes = some n ∧ 0 < n) ∧
    (∀ (s : Study) (urls : List MatchResult),
      (mkStudyMapping s urls).clinical_study_designation = s.clinical_study_designation ∧
      (mkStudyMapping s urls).numberOfCRDCNodes = s.numberOfCRDCNodes ∧
      (mkStudyMapping s urls).numberOfImageCollections = s.numberOfImageCollections ∧
      (mkStudyMapping s urls).CRDCLinks = urls) := by
  refine ⟨collectMappingsLoop_eq searchFn htmlToTextFn gliomaCleanup idcCollections
    tciaCollections tciaCollectionsData hsub studies, ?_, ?_⟩
  · intro s
    cases hn : s.numberOfCRDCNodes with
    | none => simp [keepStudy, hn]
    | some n => simp [keepStudy, hn]
  · intro s urls
    exact ⟨rfl, rfl, rfl, rfl⟩

/-- Witness for C2: a kept study (2 nodes), an excluded zero-node study
and an excluded absent-node study. -/
theorem collectMappings_filters_witness :
    (∀ q c, ∀ m ∈ (fun (_ : String) (_ : List String) => ([] : List String)) q c, m ∈ c) ∧
    collectMappings (fun _ _ => []) id id
        (some [⟨"OSA01", some 3, some 2⟩, ⟨"NHL02", some 1, some 0⟩, ⟨"UBC01", none, none⟩])
        [] [] (fun _ => none) =
      .ok [mkStudyMapping ⟨"OSA01", some 3, some 2⟩ []] := by
  refine ⟨by simp, ?_⟩
  have h := (collectMappings_filters_by_node_count (fun _ _ => []) id id
    [⟨"OSA01", some 3, some 2⟩, ⟨"NHL02", some 1, some 0⟩, ⟨"UBC01", none, none⟩]
    [] [] (fun _ => none) (by simp)).1
  rw [h]
  rfl

/-- Collections-data fixture for the C3 witness: one populated collection,
one with an empty series list, every other name missing. -/
def c3Data : String → Option (List SeriesRecord) := fun k =>
  if k = "ICDC-OSA" then some [⟨"2", "p1", "MR", "HEAD"⟩]
  else if k = "ICDC-EMPTY" then some []
  else none

/-- Claim C3: `mapMatchesToStudy` returns all IDC match entries first,
then all TCIA match entries, in match order, and a TCIA match whose series
list is empty or missing contributes no entry at all (no placeholder). -/
theorem mapMatchesToStudy_concat_skips_empty
    (searchFn : String → List String → List String)
    (htmlToTextFn gliomaCleanup : String → String) (icdcStudy : Study)
    (idcCollections : List IdcRecord) (tciaCollections : List String)
    (tciaCollectionsData : String → Option (List SeriesRecord))
    (hsub : ∀ q c, ∀ m ∈ searchFn q c, m ∈ c) :
    mapMatchesToStudy searchFn htmlToTextFn gliomaCleanup icdcStudy
        idcCollections tciaCollections tciaCollectionsData =
      .ok ((searchFn icdcStudy.clinical_study_designation
              (idcCollections.filterMap (fun o => o.collection_id))).map
            (idcEntryTotal htmlToTextFn gliomaCleanup idcCollections icdcStudy) ++
          (searchFn icdcStudy.clinical_study_designation tciaCollections).filterMap
            (tciaEntry tciaCollectionsData icdcStudy)) ∧
    (∀ m, tciaCollectionsData m = none ∨ tciaCollectionsData m = some [] →
      tciaEntry tciaCollectionsData icdcStudy m = none) ∧
    (∀ m, (idcEntryTotal htmlToTextFn gliomaCleanup idcCollections icdcStudy m).repository = "IDC") ∧
    (∀ m e, tciaEntry tciaCollectionsData icdcStudy m = some e → e.repository = "TCIA") := by
  refine ⟨mapMatchesToStudy_eq_ok searchFn htmlToTextFn gliomaCleanup icdcStudy
    idcCollections tciaCollections tciaCollectionsData hsub, ?_, ?_, ?_⟩
  · rintro m (hm | hm) <;> simp [tciaEntry, hm]
  · intro m
    cases h : getIdcCollectionMetadata htmlToTextFn gliomaCleanup m idcCollections icdcStudy with
    | none => simp [idcEntryTotal, idcEntry, h]
    | some md => simp [idcEntryTotal, idcEntry, h]
  · intro m e he
    unfold tciaEntry at he
    cases h : tciaCollectionsData m with
    | none => simp [h] at he
    | some series =>
        simp only [h] at he
        by_cases hl : 0 < series.length
        · rw [if_pos hl] at he
          cases he
          rfl
        · rw [if_neg hl] at he
          exact absurd he (by simp)

/-- Witness for C3: one IDC collection, a populated TCIA match, an
empty-series TCIA match and a missing-data TCIA match. -/
theorem mapMatchesToStudy_concat_witness :
    (∀ q c, ∀ m ∈ (fun (_ : String) (c : List String) => c) q c, m ∈ c) ∧
    tciaEntry c3Data ⟨"OSA01", some 1, some 1⟩ "ICDC-EMPTY" = none ∧
    tciaEntry c3Data ⟨"OSA01", some 1, some 1⟩ "ICDC-MISSING" = none ∧
    mapMatchesToStudy (fun _ c => c) id id ⟨"OSA01", some 1, some 1⟩
        [⟨some "icdc_osteosarcoma", "desc"⟩]
        ["ICDC-OSA", "ICDC-EMPTY", "ICDC-MISSING"] c3Data =
      .ok ((["icdc_osteosarcoma"].map
            (idcEntryTotal id id [⟨some "icdc_osteosarcoma", "desc"⟩] ⟨"OSA01", some 1, some 1⟩)) ++
          (["ICDC-OSA", "ICDC-EMPTY", "ICDC-MISSING"].filterMap
            (tciaEntry c3Data ⟨"OSA01", some 1, some 1⟩))) := by
  have h := mapMatchesToStudy_concat_skips_empty (fun _ c => c) id id
    ⟨"OSA01", some 1, some 1⟩ [⟨some "icdc_osteosarcoma", "desc"⟩]
    ["ICDC-OSA", "ICDC-EMPTY", "ICDC-MISSING"] c3Data (fun _ _ _ hm => hm)
  refine ⟨fun _ _ _ hm => hm, ?_, ?_, h.1⟩
  · exact h.2.1 "ICDC-EMPTY" (Or.inr (by decide))
  · exact h.2.1 "ICDC-MISSING" (Or.inl (by decide))

/-- Series fixture for the C4 witness: counts 10 + 5 + 0 = 15, patient ids
p1, p1, p2 giving 2 distinct patients. -/
def c4Series : List SeriesRecord :=
  [⟨"10", "p1", "MR", "HEAD"⟩, ⟨"5", "p1", "CT", "CHEST"⟩, ⟨"0", "p2", "MR", "HEAD"⟩]

/-- Collections-data fixture for the C4 witness. -/
def c4Data : String → Option (List SeriesRecord) := fun k =>
  if k = "ICDC-OSA" then some c4Series else none

/-- Claim C4: for a present series list and a non-special-case study,
`getTciaCollectionMetadata` returns `Aggregate_ImageCount` equal to the sum
of the per-series `ImageCount` strings parsed as integers, and
`Aggregate_PatientID` equal to the number of distinct `PatientID` values. -/
theorem tcia_aggregate_counts (collectionId : String)
    (tciaCollectionsData : String → Option (List SeriesRecord)) (icdcStudy : Study)
    (series : List SeriesRecord)
    (hlookup : tciaCollectionsData collectionId = some series)
    (hstudy : icdcStudy.clinical_study_designation ≠ "GLIOMA01")
    (hparse : ∀ r ∈ series, (jsParseInt r.ImageCount).isSome) :
    getTciaCollectionMetadata collectionId tciaCollectionsData icdcStudy =
      some (tciaAggregate collectionId series icdcStudy) ∧
    (tciaAggregate collectionId series icdcStudy).Aggregate_ImageCount =
      some (parsedImageCountSum series) ∧
    (tciaAggregate collectionId series icdcStudy).Aggregate_PatientID =
      (series.map (fun r => r.PatientID)).toFinset.card := by
  refine ⟨by simp [getTciaCollectionMetadata, hlookup], ?_, ?_⟩
  · simp only [tciaAggregate, if_neg hstudy]
    exact sumImageCounts_eq series hparse
  · simp only [tciaAggregate, if_neg hstudy]
    exact jsSetDedup_length_card _

/-- Witness for C4: counts `["10","5","0"]` sum to 15 and patient ids
`["p1","p1","p2"]` count 2. -/
theorem tcia_aggregate_counts_witness :
    c4Data "ICDC-OSA" = some c4Series ∧
    (Study.mk "OSA01" (some 1) (some 1)).clinical_study_designation ≠ "GLIOMA01" ∧
    (∀ r ∈ c4Series, (jsParseInt r.ImageCount).isSome) ∧
    (tciaAggregate "ICDC-OSA" c4Series ⟨"OSA01", some 1, some 1⟩).Aggregate_ImageCount =
      some (parsedImageCountSum c4Series) ∧
    (tciaAggregate "ICDC-OSA" c4Series ⟨"OSA01", some 1, some 1⟩).Aggregate_PatientID =
      (c4Series.map (fun r => r.PatientID)).toFinset.card ∧
    parsedImageCountSum c4Series = 15 ∧
    (tciaAggregate "ICDC-OSA" c4Series ⟨"OSA01", some 1, some 1⟩).Aggregate_PatientID = 2 := by
  have h := tcia_aggregate_counts "ICDC-OSA" c4Data ⟨"OSA01", some 1, some 1⟩ c4Series
    (by decide) (by decide) (by decide)
  exact ⟨by decide, by decide, by decide, h.2.1, h.2.2, by decide, by decide⟩

/-- Series fixture for the C5 witness: counts 10 + 5 = 15. -/
def c5Series : List SeriesRecord :=
  [⟨"10", "p1", "MR", "HEAD"⟩, ⟨"5", "p2", "CT", "HEAD"⟩]

/-- Collections-data fixture for the C5 witness. -/
def c5Data : String → Option (List SeriesRecord) := fun k =>
  if k = "ICDC-GLIOMA" then some c5Series else none

/-- Claim C5: for the GLIOMA01 study every TCIA metadata object has
`Aggregate_Modality` containing `"Histopathology"` and
`Aggregate_ImageCount` equal to the parsed per-series sum plus exactly 84;
for any other study no such adjustment is applied. -/
theorem tcia_aggregate_glioma_adjustment (collectionId : String)
    (tciaCollectionsData : String → Option (List SeriesRecord)) (icdcStudy : Study)
    (series : List SeriesRecord)
    (hlookup : tciaCollectionsData collectionId = some series)
    (hparse : ∀ r ∈ series, (jsParseInt r.ImageCount).isSome) :
    getTciaCollectionMetadata collectionId tciaCollectionsData icdcStudy =
      some (tciaAggregate collectionId series icdcStudy) ∧
    (icdcStudy.clinical_study_designation = "GLIOMA01" →
      "Histopathology" ∈ (tciaAggregate collectionId series icdcStudy).Aggregate_Modality ∧
      (tciaAggregate collectionId series icdcStudy).Aggregate_ImageCount =
        some (parsedImageCountSum series + 84)) ∧
    (icdcStudy.clinical_study_designation ≠ "GLIOMA01" →
      (tciaAggregate collectionId series icdcStudy).Aggregate_Modality =
        firstSeenDistinct (series.map (fun r => r.Modality)) ∧
      (tciaAggregate collectionId series icdcStudy).Aggregate_ImageCount =
        some (parsedImageCountSum series)) := by
  refine ⟨by simp [getTciaCollectionMetadata, hlookup], ?_, ?_⟩
  · intro hg
    constructor
    · simp [tciaAggregate, hg]
    · simp only [tciaAggregate, if_pos hg]
      rw [show sumImageCounts series = some (parsedImageCountSum series) from
        sumImageCounts_eq series hparse]
      rfl
  · intro hg
    constructor
    · simp only [tciaAggregate, if_neg hg]
      exact jsSetDedup_eq_firstSeenDistinct _
    · simp only [tciaAggregate, if_neg hg]
      exact sumImageCounts_eq series hparse

/-- Witness for C5 at the GLIOMA01 study: image count 15 + 84 = 99 and
`"Histopathology"` present. -/
theorem tcia_aggregate_glioma_witness :
    c5Data "ICDC-GLIOMA" = some c5Series ∧
    (∀ r ∈ c5Series, (jsParseInt r.ImageCount).isSome) ∧
    (Study.mk "GLIOMA01" (some 1) (some 2)).clinical_study_designation = "GLIOMA01" ∧
    "Histopathology" ∈
      (tciaAggregate "ICDC-GLIOMA" c5Series ⟨"GLIOMA01", some 1, some 2⟩).Aggregate_Modality ∧
    (tciaAggregate "ICDC-GLIOMA" c5Series ⟨"GLIOMA01", some 1, some 2⟩).Aggregate_ImageCount =
      some (parsedImageCountSum c5Series + 84) ∧
    parsedImageCountSum c5Series = 15 := by
  have h := tcia_aggregate_glioma_adjustment "ICDC-GLIOMA" c5Data
    ⟨"GLIOMA01", some 1, some 2⟩ c5Series (by decide) (by decide)
  have hg := h.2.1 rfl
  exact ⟨by decide, by decide, rfl, hg.1, hg.2, by decide⟩

/-- Collections-data fixture for the C6 counterexample: one series whose
modality is already `"Histopathology"`. -/
def c6CxData : String → Option (List SeriesRecord) := fun k =>
  if k = "ICDC-GLIOMA" then some [⟨"1", "p1", "Histopathology", "HEAD"⟩] else none

/-- Counterexample to C6 as stated: for the GLIOMA01 study, when a series
already carries modality `"Histopathology"`, the hardcoded push duplicates
it, so `Aggregate_Modality` is not a set of distinct strings. -/
theorem tcia_modality_duplicate_counterexample :
    getTciaCollectionMetadata "ICDC-GLIOMA" c6CxData ⟨"GLIOMA01", some 1, some 1⟩ =
      some { Collection := "ICDC-GLIOMA", Aggregate_PatientID := 1,
             Aggregate_Modality := ["Histopathology", "Histopathology"],
             Aggregate_BodyPartExamined := ["HEAD"],
             Aggregate_ImageCount := some 85 } ∧
    ¬ (["Histopathology", "Histopathology"] : List String).Nodup := by
  exact ⟨by decide, by decide⟩

/-- Claim C6 (amended): `Aggregate_BodyPartExamined` is always the distinct
value sequence in first-seen order of the series list, and the same holds
for `Aggregate_Modality` for every study other than GLIOMA01 (for GLIOMA01
the hardcoded `"Histopathology"` push can duplicate an existing modality). -/
theorem tcia_metadata_distinct_values (collectionId : String)
    (tciaCollectionsData : String → Option (List SeriesRecord)) (icdcStudy : Study)
    (series : List SeriesRecord)
    (hlookup : tciaCollectionsData collectionId = some series) :
    getTciaCollectionMetadata collectionId tciaCollectionsData icdcStudy =
      some (tciaAggregate collectionId series icdcStudy) ∧
    (tciaAggregate collectionId series icdcStudy).Aggregate_BodyPartExamined =
      firstSeenDistinct (series.map (fun r => r.BodyPartExamined)) ∧
    (tciaAggregate collectionId series icdcStudy).Aggregate_BodyPartExamined.Nodup ∧
    (tciaAggregate collectionId series icdcStudy).Aggregate_BodyPartExamined.Sublist
      (series.map (fun r => r.BodyPartExamined)) ∧
    (icdcStudy.clinical_study_designation ≠ "GLIOMA01" →
      (tciaAggregate collectionId series icdcStudy).Aggregate_Modality =
        firstSeenDistinct (series.map (fun r => r.Modality)) ∧
      (tciaAggregate collectionId series icdcStudy).Aggregate_Modality.Nodup ∧
      (tciaAggregate collectionId series icdcStudy).Aggregate_Modality.Sublist
        (series.map (fun r => r.Modality))) := by
  have hbpe : (tciaAggregate collectionId series icdcStudy).Aggregate_BodyPartExamined =
      jsSetDedup (series.map (fun r => r.BodyPartExamined)) := by
    by_cases hg : icdcStudy.clinical_study_designation = "GLIOMA01" <;>
      simp [tciaAggregate, hg]
  refine ⟨by simp [getTciaCollectionMetadata, hlookup], ?_, ?_, ?_, ?_⟩
  · rw [hbpe]
    exact jsSetDedup_eq_firstSeenDistinct _
  · rw [hbpe]
    exact jsSetDedup_nodup _
  · rw [hbpe]
    exact jsSetDedup_sublist _
  · intro hg
    have hmod : (tciaAggregate collectionId series icdcStudy).Aggregate_Modality =
        jsSetDedup (series.map (fun r => r.Modality)) := by
      simp [tciaAggregate, hg]
    rw [hmod]
    exact ⟨jsSetDedup_eq_firstSeenDistinct _, jsSetDedup_nodup _, jsSetDedup_sublist _⟩

/-- Collections-data fixture for the C6 witness. -/
def c6Data : String → Option (List SeriesRecord) := fun k =>
  if k = "ICDC-MEL" then
    some [⟨"4", "p1", "MR", "HEAD"⟩, ⟨"6", "p2", "MR", "NECK"⟩, ⟨"1", "p3", "CT", "HEAD"⟩]
  else none

/-- Witness for the amended C6 at a non-special study with repeated
modalities and body parts across series. -/
theorem tcia_metadata_distinct_witness :
    c6Data "ICDC-MEL" =
      some [⟨"4", "p1", "MR", "HEAD"⟩, ⟨"6", "p2", "MR", "NECK"⟩, ⟨"1", "p3", "CT", "HEAD"⟩] ∧
    (tciaAggregate "ICDC-MEL"
        [⟨"4", "p1", "MR", "HEAD"⟩, ⟨"6", "p2", "MR", "NECK"⟩, ⟨"1", "p3", "CT", "HEAD"⟩]
        ⟨"MEL01", some 1, some 1⟩).Aggregate_BodyPartExamined =
      firstSeenDistinct ["HEAD", "NECK", "HEAD"] ∧
    (tciaAggregate "ICDC-MEL"
        [⟨"4", "p1", "MR", "HEAD"⟩, ⟨"6", "p2", "MR", "NECK"⟩, ⟨"1", "p3", "CT", "HEAD"⟩]
        ⟨"MEL01", some 1, some 1⟩).Aggregate_Modality.Nodup := by
  have h := tcia_metadata_distinct_values "ICDC-MEL" c6Data ⟨"MEL01", some 1, some 1⟩
    [⟨"4", "p1", "MR", "HEAD"⟩, ⟨"6", "p2", "MR", "NECK"⟩, ⟨"1", "p3", "CT", "HEAD"⟩]
    (by decide)
  exact ⟨by decide, h.2.1, (h.2.2.2.2 (by decide)).2.1⟩

/-- Claim C7: each non-primary fetcher turns any transport/parse failure
into an empty list instead of propagating it, and the pipeline still
completes — with the IDC fetch failing, the run returns mappings whose
links come only from the TCIA side. -/
theorem fetch_failures_degrade (searchFn : String → List String → List String)
    (htmlToTextFn gliomaCleanup : String → String) (resp : RegistryResponse)
    (studies : List Study) (tciaResponse : FetchOutcome (List TciaRawRecord))
    (fetchSeries : String → FetchOutcome (List SeriesRecord))
    (hsub : ∀ q c, ∀ m ∈ searchFn q c, m ∈ c)
    (hresp : resp.data.bind (fun d => d.studiesByProgram) = some studies) :
    getIdcCollections .err = [] ∧
    getTciaCollections .err = [] ∧
    getTciaCollectionData .err = [] ∧
    mapExternalDataToStudies searchFn htmlToTextFn gliomaCleanup (.ok resp)
        .err tciaResponse fetchSeries =
      .inr ((studies.filter keepStudy).map
        (fun s => mkStudyMapping s
          ((searchFn s.clinical_study_designation (getTciaCollections tciaResponse)).filterMap
            (tciaEntry (getTciaCollectionsData fetchSeries (getTciaCollections tciaResponse)) s)))) := by
  refine ⟨rfl, rfl, rfl, ?_⟩
  have hempty : ∀ q : String, searchFn q [] = [] := fun q =>
    List.eq_nil_iff_forall_not_mem.mpr (fun x hx => (List.not_mem_nil x) (hsub q [] x hx))
  have hml : ∀ s : Study,
      matchLinks searchFn htmlToTextFn gliomaCleanup (getIdcCollections .err)
        (getTciaCollections tciaResponse)
        (getTciaCollectionsData fetchSeries (getTciaCollections tciaResponse)) s =
      (searchFn s.clinical_study_designation (getTciaCollections tciaResponse)).filterMap
        (tciaEntry (getTciaCollectionsData fetchSeries (getTciaCollections tciaResponse)) s) := by
    intro s
    simp [matchLinks, getIdcCollections, hempty]
  simp only [mapExternalDataToStudies, getIcdcStudyData, hresp, collectMappings,
    collectMappingsLoop_eq searchFn htmlToTextFn gliomaCleanup _ _ _ hsub, hml]

/-- Registry fixture for the C7 witness. -/
def c7Registry : RegistryResponse :=
  { data := some { studiesByProgram := some [⟨"OSA01", some 1, some 1⟩] } }

/-- Per-name series outcomes for the C7 witness. -/
def c7FetchSeries : String → FetchOutcome (List SeriesRecord) := fun k =>
  if k = "ICDC-OSA" then .ok [⟨"2", "p1", "MR", "HEAD"⟩] else .err

/-- Witness for C7: IDC listing fails, TCIA succeeds, and the pipeline
returns a mapping built from TCIA links alone. -/
theorem fetch_failures_degrade_witness :
    (∀ q c, ∀ m ∈ (fun (_ : String) (c : List String) => c) q c, m ∈ c) ∧
    c7Registry.data.bind (fun d => d.studiesByProgram) = some [⟨"OSA01", some 1, some 1⟩] ∧
    mapExternalDataToStudies (fun _ c => c) id id (.ok c7Registry)
        .err (.ok [⟨some "ICDC-OSA"⟩]) c7FetchSeries =
      .inr (([⟨"OSA01", some 1, some 1⟩].filter keepStudy).map
        (fun s => mkStudyMapping s
          (((fun (_ : String) (c : List String) => c) s.clinical_study_designation
              (getTciaCollections (.ok [⟨some "ICDC-OSA"⟩]))).filterMap
            (tciaEntry (getTciaCollectionsData c7FetchSeries
              (getTciaCollections (.ok [⟨some "ICDC-OSA"⟩]))) s)))) := by
  refine ⟨fun _ _ _ hm => hm, rfl, ?_⟩
  exact (fetch_failures_degrade (fun _ c => c) id id c7Registry
    [⟨"OSA01", some 1, some 1⟩] (.ok [⟨some "ICDC-OSA"⟩]) c7FetchSeries
    (fun _ _ _ hm => hm) rfl).2.2.2

/-- Claim C8: a registry response that parses but lacks
`data.studiesByProgram` makes `getIcdcStudyData` return `undefined`
without raising, and the pipeline tolerates it, returning an empty mapping
sequence. -/
theorem missing_studies_field_tolerated (searchFn : String → List String → List String)
    (htmlToTextFn gliomaCleanup : String → String) (resp : RegistryResponse)
    (idcResponse : FetchOutcome IdcListing)
    (tciaResponse : FetchOutcome (List TciaRawRecord))
    (fetchSeries : String → FetchOutcome (List SeriesRecord))
    (h : resp.data.bind (fun d => d.studiesByProgram) = none) :
    getIcdcStudyData (.ok resp) = .ok none ∧
    mapExternalDataToStudies searchFn htmlToTextFn gliomaCleanup (.ok resp)
      idcResponse tciaResponse fetchSeries = .inr [] := by
  constructor
  · simp [getIcdcStudyData, h]
  · simp [mapExternalDataToStudies, getIcdcStudyData, h, collectMappings]

/-- Witness for C8: the registry body has a `data` object with no
`studiesByProgram` field. -/
theorem missing_studies_field_witness :
    (RegistryResponse.mk (some { studiesByProgram := none })).data.bind
      (fun d => d.studiesByProgram) = none ∧
    getIcdcStudyData (.ok ⟨some { studiesByProgram := none }⟩) = .ok none ∧
    mapExternalDataToStudies (fun _ c => c) id id
      (.ok ⟨some { studiesByProgram := none }⟩) (.ok { collections := some [] })
      (.ok []) (fun _ => .err) = .inr [] := by
  refine ⟨rfl, ?_, ?_⟩
  · exact (missing_studies_field_tolerated (fun _ c => c) id id
      ⟨some { studiesByProgram := none }⟩ (.ok { collections := some [] })
      (.ok []) (fun _ => .err) rfl).1
  · exact (missing_studies_field_tolerated (fun _ c => c) id id
      ⟨some { studiesByProgram := none }⟩ (.ok { collections := some [] })
      (.ok []) (fun _ => .err) rfl).2

/-- Claim C9: on the non-special path, description normalization is
exactly the plain-markup conversion with no further transformation, and it
is idempotent there whenever the conversion fixes its own output (which is
what "plain-markup conversion" asserts of the external converter). -/
theorem normalize_non_special_plain (htmlToTextFn gliomaCleanup : String → String)
    (raw designation : String)
    (hds : designation ≠ "GLIOMA01") :
    normalizeDescription htmlToTextFn gliomaCleanup raw designation = htmlToTextFn raw ∧
    (htmlToTextFn (htmlToTextFn raw) = htmlToTextFn raw →
      normalizeDescription htmlToTextFn gliomaCleanup
          (normalizeDescription htmlToTextFn gliomaCleanup raw designation) designation =
        normalizeDescription htmlToTextFn gliomaCleanup raw designation) := by
  constructor
  · simp [normalizeDescription, hds]
  · intro hid
    simp [normalizeDescription, hds, hid]

/-- Witness for C9: a non-special study, an idempotent plain-text
converter, and a cleanup function that would visibly change the string if
the special path were ever taken. -/
theorem normalize_non_special_witness :
    ("OSA01" : String) ≠ "GLIOMA01" ∧
    normalizeDescription (fun s => s) (fun s => s ++ "CLEANED") "a dog study" "OSA01" =
      "a dog study" ∧
    normalizeDescription (fun s => s) (fun s => s ++ "CLEANED")
        (normalizeDescription (fun s => s) (fun s => s ++ "CLEANED") "a dog study" "OSA01")
        "OSA01" =
      normalizeDescription (fun s => s) (fun s => s ++ "CLEANED") "a dog study" "OSA01" := by
  refine ⟨by decide, ?_, ?_⟩
  · exact (normalize_non_special_plain (fun s => s) (fun s => s ++ "CLEANED")
      "a dog study" "OSA01" (by decide)).1
  · exact (normalize_non_special_plain (fun s => s) (fun s => s ++ "CLEANED")
      "a dog study" "OSA01" (by decide)).2 rfl

/-- Claim C10: one record lacking the filtered property makes the filter
throw inside the fetcher's catch-all, so the whole fetch returns an empty
list — well-formed records in the same response are discarded too,
indistinguishably from a transport failure. -/
theorem missing_property_discards_listing (idcList : List IdcRecord)
    (tciaList : List TciaRawRecord)
    (h1 : ∃ r ∈ idcList, r.collection_id = none)
    (h2 : ∃ r ∈ tciaList, r.Collection = none) :
    getIdcCollections (.ok { collections := some idcList }) = [] ∧
    getIdcCollections (.ok { collections := some idcList }) = getIdcCollections .err ∧
    getTciaCollections (.ok tciaList) = [] ∧
    getTciaCollections (.ok tciaList) = getTciaCollections .err := by
  have e1 := filterObjectArray_error (fun o : IdcRecord => o.collection_id) "icdc_" idcList h1
  have e2 := filterObjectArray_error (fun o : TciaRawRecord => o.Collection) "ICDC-" tciaList h2
  refine ⟨?_, ?_, ?_, ?_⟩ <;> simp [getIdcCollections, getTciaCollections, e1, e2]

/-- Witness for C10: each listing holds one well-formed record (which
would pass the filter) next to one record lacking the filtered property;
both fetches nevertheless return the empty list. -/
theorem missing_property_discards_witness :
    (∃ r ∈ [IdcRecord.mk (some "icdc_good") "d", IdcRecord.mk none "e"],
      r.collection_id = none) ∧
    (∃ r ∈ [TciaRawRecord.mk (some "ICDC-GOOD"), TciaRawRecord.mk none],
      r.Collection = none) ∧
    getIdcCollections
      (.ok { collections := some [IdcRecord.mk (some "icdc_good") "d", IdcRecord.mk none "e"] }) =
      [] ∧
    getTciaCollections (.ok [TciaRawRecord.mk (some "ICDC-GOOD"), TciaRawRecord.mk none]) = [] := by
  have h := missing_property_discards_listing
    [IdcRecord.mk (some "icdc_good") "d", IdcRecord.mk none "e"]
    [TciaRawRecord.mk (some "ICDC-GOOD"), TciaRawRecord.mk none]
    (by decide) (by decide)
  exact ⟨by decide, by decide, h.1, h.2.2.1⟩

end Icdc
